import Mathlib

/-!
Verification development for `src/create_enrichment_comparison_table.py`, a
batch tool that merges gene-set enrichment tables from three methods
(clusterProfiler, gprofiler2, topGO) into one comparison table.

Modelling conventions for the shallow embedding:
* A pandas cell is `Option PyVal`: `none` is the missing marker (NaN); a
  present cell is a string, an exact rational standing for a Python float
  (real-number semantics; binary rounding is not modelled), or a boolean.
* Columns that pandas reads as numeric are embedded as `Option ℚ`; a cell of
  any other shape in such a column is treated as missing.
* A CSV file is a `Frame`: a header list plus rows of cells.  Accessing an
  absent column is the `KeyError` of `df[col]`, embedded as `Except.error`
  naming the column; lookups happen in the same order as in the source.
* The Python `set` of term ids has an unspecified iteration order across
  runs (string hashing is randomised), so `list(all_terms)` is embedded as
  an explicit parameter `order`, constrained by `IsEnumOf` to enumerate the
  union of term ids exactly once.
* `pandas.merge(..., how := left)` keeps the left row order and, for each
  left row, emits one output row per matching right row (in right order), or
  a single all-missing row when nothing matches.
* `sort_values` on several keys uses a stable sort (numpy lexsort); a stable
  sort under a total preorder has a unique result, so it is embedded as
  `List.insertionSort`, which is stable; NaN sort keys go last within each
  key, per the default na_position.
-/

/-- A non-missing Python cell value: string, float (as exact rational) or bool. -/
inductive PyVal where
  | vstr (s : String)
  | vnum (q : ℚ)
  | vbool (b : Bool)
deriving DecidableEq, Repr

/-- Digits to a natural number, most significant first. -/
def digitsToNat (l : List Char) : ℕ :=
  l.foldl (fun a c => 10 * a + (c.toNat - 48)) 0

/-- The rational `m * 10 ^ e` for an integer exponent `e` (written with
`mkRat` so that values compute by kernel reduction). -/
def decToRat (m : ℤ) (e : ℤ) : ℚ :=
  if 0 ≤ e then mkRat (m * 10 ^ e.toNat) 1 else mkRat m (10 ^ (-e).toNat)

/-- Exponent part of a float literal: optional sign then at least one digit. -/
def parseExpPart : List Char → Option ℤ
  | [] => none
  | cs =>
    let sgn : ℤ := match cs with
      | '-' :: _ => -1
      | _ => 1
    let rest := match cs with
      | '+' :: r => r
      | '-' :: r => r
      | r => r
    if rest ≠ [] ∧ rest.all Char.isDigit then some (sgn * digitsToNat rest) else none

/-- Python `float(s)` on a trimmed character list, over the decimal literal
grammar `[sign] (digits [. digits] | . digits) [(e|E) [sign] digits]`
(`inf`/`nan` spellings and underscores are outside the inputs modelled here).
Returns `none` where `float` raises `ValueError`. -/
def pyFloatCore (cs : List Char) : Option ℚ :=
  let sgn : ℤ := match cs with
    | '-' :: _ => -1
    | _ => 1
  let cs1 := match cs with
    | '+' :: r => r
    | '-' :: r => r
    | r => r
  let ip := cs1.takeWhile Char.isDigit
  let cs2 := cs1.dropWhile Char.isDigit
  let fp := match cs2 with
    | '.' :: r => r.takeWhile Char.isDigit
    | _ => []
  let cs3 := match cs2 with
    | '.' :: r => r.dropWhile Char.isDigit
    | r => r
  if ip.isEmpty ∧ fp.isEmpty then none
  else if ¬ (ip.all Char.isDigit) then none
  else
    let mant : ℤ := sgn * ((digitsToNat ip) * 10 ^ fp.length + digitsToNat fp)
    match cs3 with
    | [] => some (decToRat mant (-(fp.length : ℤ)))
    | 'e' :: r => (parseExpPart r).map fun e => decToRat mant (e - fp.length)
    | 'E' :: r => (parseExpPart r).map fun e => decToRat mant (e - fp.length)
    | _ => none

/-- Python `str.strip()`: drop whitespace from both ends. -/
def pyStrip (cs : List Char) : List Char :=
  ((cs.dropWhile Char.isWhitespace).reverse.dropWhile Char.isWhitespace).reverse

/-- Python `float(s)` for a string (`float` strips surrounding whitespace
itself before parsing). -/
def pyFloat? (s : String) : Option ℚ :=
  pyFloatCore (pyStrip s.data)

/-- `parse_p_value` (source lines 15-32): missing stays missing; otherwise the
cell is rendered with `str` and stripped, a single leading `<` is dropped (and
the rest stripped again), and the text is parsed as a float; a `ValueError`
becomes the missing marker.  `str` on a float round-trips, so a numeric cell
parses to itself; `str(True)`/`str(False)` do not parse as floats. -/
def parse_p_value : Option PyVal → Option ℚ
  | none => none
  | some (.vnum q) => some q
  | some (.vbool _) => none
  | some (.vstr s) =>
    match pyStrip s.data with
    | '<' :: r => pyFloatCore (pyStrip r)
    | p => pyFloatCore p

/-- A delimited file as read by `pd.read_csv`: header names plus cell rows. -/
structure Frame where
  cols : List String
  rows : List (List (Option PyVal))
deriving DecidableEq, Repr

/-- `df[c]` for one row: the cell under header `c` (missing when the row is
short; loaders only call this after the schema check ensures `c` is present). -/
def Frame.getCell (f : Frame) (r : List (Option PyVal)) (c : String) : Option PyVal :=
  match f.cols.findIdx? (· == c) with
  | some i => (r[i]?).join
  | none => none

deriving instance DecidableEq for Except

/-- A cell of a numeric pandas column as `Option ℚ`. -/
def asNum : Option PyVal → Option ℚ
  | some (.vnum q) => some q
  | _ => none

/-- A cell of a boolean pandas column as `Option Bool`. -/
def asBool : Option PyVal → Option Bool
  | some (.vbool b) => some b
  | _ => none

/-- Pandas elementwise `series < t`: `NaN < t` is `False`, never missing. -/
def seriesLt : Option ℚ → ℚ → Bool
  | none, _ => false
  | some x, t => decide (x < t)

/-- A row of the standardized clusterProfiler table built at source lines 39-52. -/
structure CPRow where
  term_id : Option PyVal
  term_name : Option PyVal
  pvalue : Option ℚ
  qvalue : Option ℚ
  p_adjust : Option ℚ
  fold_enrichment : Option ℚ
  gene_count : Option ℚ
  gene_ratio : Option PyVal
  genes : Option PyVal
  significant : Bool
deriving DecidableEq, Repr

/-- A row of the standardized gprofiler2 table built at source lines 63-72. -/
structure GPRow where
  term_id : Option PyVal
  term_name : Option PyVal
  pvalue : Option ℚ
  significant : Option Bool
  term_size : Option ℚ
  intersection_size : Option ℚ
  precision_ : Option ℚ
  recall_ : Option ℚ
deriving DecidableEq, Repr

/-- A row of the standardized topGO table built at source lines 80-93. -/
structure TGRow where
  term_id : Option PyVal
  term_name : Option PyVal
  pvalue_raw : Option PyVal
  annotated : Option ℚ
  significant : Option ℚ
  expected : Option ℚ
  pvalue : Option ℚ
  significant_flag : Bool
deriving DecidableEq, Repr

/-- Columns `load_clusterprofiler_results` accesses, in access order. -/
def cpRequiredCols : List String :=
  ["ID", "Description", "pvalue", "qvalue", "p.adjust", "FoldEnrichment",
   "Count", "GeneRatio", "geneID"]

/-- `load_clusterprofiler_results` (source lines 34-54): select and rename the
columns, then flag significance as `qvalue < 0.05` (NaN compares `False`).
A missing column is the `KeyError` raised at its first access. -/
def load_clusterprofiler_results (f : Frame) : Except String (List CPRow) :=
  match cpRequiredCols.find? (fun c => ! f.cols.contains c) with
  | some c => .error c
  | none => .ok <| f.rows.map fun r =>
      let q := asNum (f.getCell r "qvalue")
      { term_id := f.getCell r "ID"
        term_name := f.getCell r "Description"
        pvalue := asNum (f.getCell r "pvalue")
        qvalue := q
        p_adjust := asNum (f.getCell r "p.adjust")
        fold_enrichment := asNum (f.getCell r "FoldEnrichment")
        gene_count := asNum (f.getCell r "Count")
        gene_ratio := f.getCell r "GeneRatio"
        genes := f.getCell r "geneID"
        significant := seriesLt q (mkRat 5 100) }

/-- Columns `load_gprofiler2_results` accesses, in access order (`source` is
read first, by the `GO:BP` filter). -/
def gpRequiredCols : List String :=
  ["source", "term_id", "term_name", "p_value", "significant", "term_size",
   "intersection_size", "precision", "recall"]

/-- `load_gprofiler2_results` (source lines 56-74): keep only `GO:BP` rows,
then select and rename; the input's own `significant` boolean is trusted. -/
def load_gprofiler2_results (f : Frame) : Except String (List GPRow) :=
  match gpRequiredCols.find? (fun c => ! f.cols.contains c) with
  | some c => .error c
  | none => .ok <|
      (f.rows.filter fun r => f.getCell r "source" == some (.vstr "GO:BP")).map fun r =>
        { term_id := f.getCell r "term_id"
          term_name := f.getCell r "term_name"
          pvalue := asNum (f.getCell r "p_value")
          significant := asBool (f.getCell r "significant")
          term_size := asNum (f.getCell r "term_size")
          intersection_size := asNum (f.getCell r "intersection_size")
          precision_ := asNum (f.getCell r "precision")
          recall_ := asNum (f.getCell r "recall") }

/-- Columns `load_topgo_results` accesses, in access order. -/
def tgRequiredCols : List String :=
  ["GO.ID", "Term", "fisher", "Annotated", "Significant", "Expected"]

/-- `load_topgo_results` (source lines 76-95): select and rename, normalise
the raw `fisher` cell with `parse_p_value`, and flag significance as
`parsed pvalue < 0.05` (NaN compares `False`). -/
def load_topgo_results (f : Frame) : Except String (List TGRow) :=
  match tgRequiredCols.find? (fun c => ! f.cols.contains c) with
  | some c => .error c
  | none => .ok <| f.rows.map fun r =>
      let raw := f.getCell r "fisher"
      let p := parse_p_value raw
      { term_id := f.getCell r "GO.ID"
        term_name := f.getCell r "Term"
        pvalue_raw := raw
        annotated := asNum (f.getCell r "Annotated")
        significant := asNum (f.getCell r "Significant")
        expected := asNum (f.getCell r "Expected")
        pvalue := p
        significant_flag := seriesLt p (mkRat 5 100) }

/-- A row of the merged master table for one entry of `list(all_terms)`:
the term id plus, per method, the matching standardized row if any
(`none` is the all-NaN block a left join leaves for an unmatched method). -/
structure MergedRow where
  term_id : PyVal
  cp : Option CPRow
  gp : Option GPRow
  tg : Option TGRow
deriving DecidableEq, Repr

/-- Rows of `rows` whose key equals `some t`, in table order (missing keys in
the right table never match, since the master keys are all non-missing). -/
def matchRows {α : Type} (key : α → Option PyVal) (rows : List α) (t : PyVal) : List α :=
  rows.filter fun r => key r == some t

/-- One step of `merge(..., how := left)` for a single master key: each match
in order, or a single missing block when there is no match. -/
def leftMatches {α : Type} (key : α → Option PyVal) (rows : List α) (t : PyVal) :
    List (Option α) :=
  match matchRows key rows t with
  | [] => [none]
  | ms => ms.map some

/-- The master dataframe after the three left merges of source lines 121-126,
with `list(all_terms)` given as `order`. -/
def masterRows (order : List PyVal) (cps : List CPRow) (gps : List GPRow)
    (tgs : List TGRow) : List MergedRow :=
  order.flatMap fun t =>
    (leftMatches CPRow.term_id cps t).flatMap fun c =>
      (leftMatches GPRow.term_id gps t).flatMap fun g =>
        (leftMatches TGRow.term_id tgs t).map fun h =>
          { term_id := t, cp := c, gp := g, tg := h }

/-- `get_best_term_name` (source lines 129-133): first non-missing name among
the clusterProfiler, gprofiler2 and topGO name columns, else `"Unknown"`. -/
def get_best_term_name (m : MergedRow) : PyVal :=
  match m.cp.bind CPRow.term_name with
  | some n => n
  | none =>
    match m.gp.bind GPRow.term_name with
    | some n => n
    | none =>
      match m.tg.bind TGRow.term_name with
      | some n => n
      | none => .vstr "Unknown"

/-- The list of all non-missing `term_id` cells of the three standardized
tables (with repetitions); `all_terms` is its set of members. -/
def allTermIds (cps : List CPRow) (gps : List GPRow) (tgs : List TGRow) : List PyVal :=
  cps.filterMap CPRow.term_id ++ gps.filterMap GPRow.term_id ++ tgs.filterMap TGRow.term_id

/-- `order` is a possible value of `list(all_terms)` (source lines 113-121):
an enumeration, without repetition, of exactly the non-missing term ids of
the three standardized tables.  The iteration order of a Python `set` of
strings is unspecified across runs, so it is quantified, not fixed. -/
def IsEnumOf (order : List PyVal) (cps : List CPRow) (gps : List GPRow)
    (tgs : List TGRow) : Prop :=
  order.Nodup ∧ (∀ t ∈ order, t ∈ allTermIds cps gps tgs) ∧
    (∀ t ∈ allTermIds cps gps tgs, t ∈ order)

instance (order : List PyVal) (cps : List CPRow) (gps : List GPRow) (tgs : List TGRow) :
    Decidable (IsEnumOf order cps gps tgs) := by
  unfold IsEnumOf; infer_instance

/-- A row of the final table, holding the columns of `final_columns`
(source lines 157-167) after the two renames of lines 174-177; all of them
exist in every run, so the `available_columns` filter keeps the whole list. -/
structure OutRow where
  term_id : PyVal
  term_name : PyVal
  methods_significant : ℕ
  methods_total : ℕ
  clusterprofiler_pvalue : Option ℚ
  clusterprofiler_qvalue : Option ℚ
  clusterprofiler_p_adjust : Option ℚ
  clusterprofiler_fold_enrichment : Option ℚ
  clusterprofiler_gene_count : Option ℚ
  clusterprofiler_significant : Option Bool
  gprofiler2_pvalue : Option ℚ
  gprofiler2_significant : Option Bool
  gprofiler2_term_size : Option ℚ
  gprofiler2_intersection_size : Option ℚ
  gprofiler2_precision : Option ℚ
  gprofiler2_recall : Option ℚ
  topgo_pvalue : Option ℚ
  topgo_pvalue_raw : Option PyVal
  topgo_significant_flag : Option Bool
  topgo_annotated : Option ℚ
  topgo_significant : Option ℚ
  topgo_expected : Option ℚ
  clusterprofiler_gene_ids : Option PyVal
deriving DecidableEq, Repr

/-- Derived columns and column selection for one merged row: the resolved
name (line 135), `methods_total` as the count of non-missing method p-value
cells (lines 139-143), `methods_significant` as the count of significance
flags true after `fillna(False)` (lines 146-154), then the `final_columns`
projection and renaming (lines 157-177). -/
def mkOut (m : MergedRow) : OutRow :=
  { term_id := m.term_id
    term_name := get_best_term_name m
    methods_significant :=
      ((m.cp.map CPRow.significant).getD false).toNat +
      ((m.gp.bind GPRow.significant).getD false).toNat +
      ((m.tg.map TGRow.significant_flag).getD false).toNat
    methods_total :=
      (m.cp.bind CPRow.pvalue).isSome.toNat +
      (m.gp.bind GPRow.pvalue).isSome.toNat +
      (m.tg.bind TGRow.pvalue).isSome.toNat
    clusterprofiler_pvalue := m.cp.bind CPRow.pvalue
    clusterprofiler_qvalue := m.cp.bind CPRow.qvalue
    clusterprofiler_p_adjust := m.cp.bind CPRow.p_adjust
    clusterprofiler_fold_enrichment := m.cp.bind CPRow.fold_enrichment
    clusterprofiler_gene_count := m.cp.bind CPRow.gene_count
    clusterprofiler_significant := m.cp.map CPRow.significant
    gprofiler2_pvalue := m.gp.bind GPRow.pvalue
    gprofiler2_significant := m.gp.bind GPRow.significant
    gprofiler2_term_size := m.gp.bind GPRow.term_size
    gprofiler2_intersection_size := m.gp.bind GPRow.intersection_size
    gprofiler2_precision := m.gp.bind GPRow.precision_
    gprofiler2_recall := m.gp.bind GPRow.recall_
    topgo_pvalue := m.tg.bind TGRow.pvalue
    topgo_pvalue_raw := m.tg.bind TGRow.pvalue_raw
    topgo_significant_flag := m.tg.map TGRow.significant_flag
    topgo_annotated := m.tg.bind TGRow.annotated
    topgo_significant := m.tg.bind TGRow.significant
    topgo_expected := m.tg.bind TGRow.expected
    clusterprofiler_gene_ids := m.cp.bind CPRow.genes }

/-- Pandas row-wise `min` over the three method p-value columns: NaN cells
are skipped; the minimum of an all-NaN row is itself NaN (source line 180). -/
def min_pvalue (r : OutRow) : Option ℚ :=
  let m2 := match r.clusterprofiler_pvalue, r.gprofiler2_pvalue with
    | none, b => b
    | a, none => a
    | some x, some y => some (if x ≤ y then x else y)
  match m2, r.topgo_pvalue with
  | none, b => b
  | a, none => a
  | some x, some y => some (if x ≤ y then x else y)

/-- Ascending comparison on the `min_pvalue` sort key with NaN last
(`na_position` default of `sort_values`). -/
def mpLe : Option ℚ → Option ℚ → Bool
  | some x, some y => decide (x ≤ y)
  | some _, none => true
  | none, some _ => false
  | none, none => true

/-- The composite key of `sort_values` at source lines 181-182:
`methods_significant` descending, then `methods_total` descending, then
`min_pvalue` ascending with NaN last. -/
def rowLe (a b : OutRow) : Bool :=
  if a.methods_significant ≠ b.methods_significant then
    b.methods_significant < a.methods_significant
  else if a.methods_total ≠ b.methods_total then
    b.methods_total < a.methods_total
  else
    mpLe (min_pvalue a) (min_pvalue b)

/-- The body of `create_comparison_table` after the three loaders (source
lines 112-187): master table from the term union, derived columns, column
projection, and the stable three-key sort.  `significance_threshold` mirrors
the source parameter (line 97), which the body never reads — both 0.05
cutoffs are hard-coded in the loaders.  `order` stands for `list(all_terms)`,
whose iteration order Python does not fix. -/
def create_comparison_table_core (order : List PyVal) (cps : List CPRow)
    (gps : List GPRow) (tgs : List TGRow) (significance_threshold : ℚ) : List OutRow :=
  List.insertionSort (fun a b => rowLe a b = true)
    ((masterRows order cps gps tgs).map mkOut)

/-- `create_comparison_table` (source lines 97-187) from the three input
files: run the loaders, then the merge/derive/sort pipeline; a loader's
`KeyError` aborts the whole call. -/
def create_comparison_table (cpF gpF tgF : Frame) (order : List PyVal)
    (significance_threshold : ℚ) : Except String (List OutRow) := do
  let cps ← load_clusterprofiler_results cpF
  let gps ← load_gprofiler2_results gpF
  let tgs ← load_topgo_results tgF
  pure (create_comparison_table_core order cps gps tgs significance_threshold)

/-- The filesystem visible to `main`: the readable files and their parsed
contents. -/
structure FS where
  files : List (String × Frame)

/-- `Path.exists` / reading a file, as a lookup in the filesystem. -/
def FS.lookup (fs : FS) (p : String) : Option Frame :=
  (fs.files.find? fun e => e.1 == p).map Prod.snd

/-- Reading one of the input files (defined only when the existence check of
source lines 201-204 has passed). -/
def FS.frameOf (fs : FS) (p : String) : Frame :=
  (fs.lookup p).getD ⟨[], []⟩

/-- The observable outcome of `main` (source lines 189-218): an early return
with the missing-file message of line 203 (before any output is written), an
unhandled `KeyError` from a loader (aborting with no output), or a completed
run that wrote the given table to the output file. -/
inductive MainResult where
  | missingFile (path : String)
  | schemaFailure (col : String)
  | wrote (table : List OutRow)
deriving DecidableEq, Repr

/-- The three fixed input paths of source lines 196-198, in checking order. -/
def inputPaths : List String :=
  ["results/clusterProfiler_enrichment_results.csv",
   "results/gprofiler2_enrichment_results.csv",
   "results/topGO_enrichment_results.csv"]

/-- `main` (source lines 189-218): check the three inputs in order and stop
at the first missing one; otherwise build the comparison table and write it.
Console summaries are pure prints and are not modelled; `order` again stands
for the set iteration order inside `create_comparison_table`. -/
def main_run (fs : FS) (order : List PyVal) : MainResult :=
  match inputPaths.find? fun p => (fs.lookup p).isNone with
  | some p => .missingFile p
  | none =>
    match create_comparison_table
        (fs.frameOf "results/clusterProfiler_enrichment_results.csv")
        (fs.frameOf "results/gprofiler2_enrichment_results.csv")
        (fs.frameOf "results/topGO_enrichment_results.csv") order (mkRat 5 100) with
    | .error c => .schemaFailure c
    | .ok t => .wrote t

/-- The match a left join pairs with key `t`: the first (and, when term ids
are unique in the right table, only) matching row. -/
def theMatch {α : Type} (key : α → Option PyVal) (rows : List α) (t : PyVal) : Option α :=
  (matchRows key rows t).head?

theorem matchRows_eq_nil {α : Type} (key : α → Option PyVal) (rows : List α) (t : PyVal)
    (h : t ∉ rows.filterMap key) : matchRows key rows t = [] := by
  apply List.filter_eq_nil_iff.mpr
  intro r hr hk
  exact h (List.mem_filterMap.mpr ⟨r, hr, by simpa using hk⟩)

theorem length_matchRows_le {α : Type} (key : α → Option PyVal) (rows : List α) (t : PyVal)
    (h : (rows.filterMap key).Nodup) : (matchRows key rows t).length ≤ 1 := by
  induction rows with
  | nil => simp [matchRows]
  | cons x xs ih =>
    by_cases hx : key x = some t
    · have hfm : (x :: xs).filterMap key = t :: xs.filterMap key := by
        simp [List.filterMap_cons, hx]
      rw [hfm] at h
      have hnot : t ∉ xs.filterMap key := (List.nodup_cons.mp h).1
      have hnil : matchRows key xs t = [] := matchRows_eq_nil key xs t hnot
      have : matchRows key (x :: xs) t = x :: matchRows key xs t := by
        simp [matchRows, List.filter_cons, hx]
      rw [this, hnil]
      simp
    · have : matchRows key (x :: xs) t = matchRows key xs t := by
        simp [matchRows, List.filter_cons, hx]
      rw [this]
      apply ih
      cases hkx : key x with
      | none => rwa [show (x :: xs).filterMap key = xs.filterMap key by
          simp [List.filterMap_cons, hkx]] at h
      | some s =>
        rw [show (x :: xs).filterMap key = s :: xs.filterMap key by
          simp [List.filterMap_cons, hkx]] at h
        exact (List.nodup_cons.mp h).2

theorem leftMatches_eq_theMatch {α : Type} (key : α → Option PyVal) (rows : List α) (t : PyVal)
    (h : (rows.filterMap key).Nodup) :
    leftMatches key rows t = [theMatch key rows t] := by
  have hlen := length_matchRows_le key rows t h
  cases hm : matchRows key rows t with
  | nil => simp [leftMatches, theMatch, hm]
  | cons a l =>
    rw [hm] at hlen
    have : l = [] := by
      cases l with
      | nil => rfl
      | cons b m => simp at hlen
    subst this
    simp [leftMatches, theMatch, hm]

theorem theMatch_mem {α : Type} {key : α → Option PyVal} {rows : List α} {t : PyVal} {a : α}
    (h : theMatch key rows t = some a) : a ∈ rows ∧ key a = some t := by
  unfold theMatch at h
  obtain ⟨ys, hys⟩ := List.head?_eq_some_iff.mp h
  have hmem : a ∈ matchRows key rows t := by rw [hys]; exact List.mem_cons_self a ys
  have h2 := List.mem_filter.mp hmem
  exact ⟨h2.1, by simpa using h2.2⟩

theorem theMatch_eq_none {α : Type} {key : α → Option PyVal} {rows : List α} {t : PyVal}
    (h : theMatch key rows t = none) : ∀ r ∈ rows, key r ≠ some t := by
  intro r hr hk
  have hmem : r ∈ matchRows key rows t := List.mem_filter.mpr ⟨hr, by simp [hk]⟩
  unfold theMatch at h
  cases hm : matchRows key rows t with
  | nil => rw [hm] at hmem; exact absurd hmem (List.not_mem_nil r)
  | cons b m => rw [hm] at h; simp at h

theorem key_unique {α : Type} {key : α → Option PyVal} {rows : List α}
    (h : (rows.filterMap key).Nodup) :
    ∀ r₁ ∈ rows, ∀ r₂ ∈ rows, ∀ t : PyVal, key r₁ = some t → key r₂ = some t → r₁ = r₂ := by
  induction rows with
  | nil => intro r₁ h₁; exact absurd h₁ (List.not_mem_nil r₁)
  | cons x xs ih =>
    intro r₁ h₁ r₂ h₂ t hk₁ hk₂
    have htail : (xs.filterMap key).Nodup := by
      cases hkx : key x with
      | none => rwa [show (x :: xs).filterMap key = xs.filterMap key by
          simp [List.filterMap_cons, hkx]] at h
      | some s =>
        rw [show (x :: xs).filterMap key = s :: xs.filterMap key by
          simp [List.filterMap_cons, hkx]] at h
        exact (List.nodup_cons.mp h).2
    rcases List.mem_cons.mp h₁ with rfl | h₁m
    · rcases List.mem_cons.mp h₂ with rfl | h₂m
      · rfl
      · exfalso
        rw [show (r₁ :: xs).filterMap key = t :: xs.filterMap key by
          simp [List.filterMap_cons, hk₁]] at h
        exact (List.nodup_cons.mp h).1 (List.mem_filterMap.mpr ⟨r₂, h₂m, hk₂⟩)
    · rcases List.mem_cons.mp h₂ with rfl | h₂m
      · exfalso
        rw [show (r₂ :: xs).filterMap key = t :: xs.filterMap key by
          simp [List.filterMap_cons, hk₂]] at h
        exact (List.nodup_cons.mp h).1 (List.mem_filterMap.mpr ⟨r₁, h₁m, hk₁⟩)
      · exact ih htail r₁ h₁m r₂ h₂m t hk₁ hk₂

theorem theMatch_bind_isSome {α β : Type} (key : α → Option PyVal) (val : α → Option β)
    (rows : List α) (t : PyVal) (h : (rows.filterMap key).Nodup) :
    ((theMatch key rows t).bind val).isSome =
      decide (∃ r ∈ rows, key r = some t ∧ (val r).isSome = true) := by
  cases hm : theMatch key rows t with
  | none =>
    have hne : ¬ ∃ r ∈ rows, key r = some t ∧ (val r).isSome = true := by
      rintro ⟨r, hr, hk, -⟩
      exact theMatch_eq_none hm r hr hk
    simp [hne]
  | some a =>
    obtain ⟨ham, hak⟩ := theMatch_mem hm
    by_cases hva : (val a).isSome = true
    · have hex : ∃ r ∈ rows, key r = some t ∧ (val r).isSome = true := ⟨a, ham, hak, hva⟩
      simp [hva, hex]
    · have hne : ¬ ∃ r ∈ rows, key r = some t ∧ (val r).isSome = true := by
        rintro ⟨r, hr, hk, hv⟩
        have : r = a := key_unique h r hr a ham t hk hak
        rw [this] at hv
        exact hva hv
      simp only [Bool.not_eq_true] at hva
      simp [hva, hne]

theorem masterRows_eq_map (order : List PyVal) (cps : List CPRow) (gps : List GPRow)
    (tgs : List TGRow)
    (hcp : (cps.filterMap CPRow.term_id).Nodup)
    (hgp : (gps.filterMap GPRow.term_id).Nodup)
    (htg : (tgs.filterMap TGRow.term_id).Nodup) :
    masterRows order cps gps tgs = order.map fun t =>
      { term_id := t, cp := theMatch CPRow.term_id cps t,
        gp := theMatch GPRow.term_id gps t, tg := theMatch TGRow.term_id tgs t } := by
  induction order with
  | nil => rfl
  | cons t ts ih =>
    simp only [masterRows, List.flatMap_cons, List.map_cons] at *
    rw [leftMatches_eq_theMatch CPRow.term_id cps t hcp,
        leftMatches_eq_theMatch GPRow.term_id gps t hgp,
        leftMatches_eq_theMatch TGRow.term_id tgs t htg]
    simp only [List.flatMap_cons, List.flatMap_nil, List.map_cons, List.map_nil,
      List.append_nil, List.nil_append, List.singleton_append, List.cons_append]
    rw [ih]

theorem mkOut_term_id (m : MergedRow) : (mkOut m).term_id = m.term_id := rfl

theorem masterRows_map_term_id (order : List PyVal) (cps : List CPRow) (gps : List GPRow)
    (tgs : List TGRow)
    (hcp : (cps.filterMap CPRow.term_id).Nodup)
    (hgp : (gps.filterMap GPRow.term_id).Nodup)
    (htg : (tgs.filterMap TGRow.term_id).Nodup) :
    (masterRows order cps gps tgs).map MergedRow.term_id = order := by
  rw [masterRows_eq_map order cps gps tgs hcp hgp htg, List.map_map]
  exact List.map_id'' (fun t => rfl) order

theorem mpLe_trans : ∀ a b c : Option ℚ, mpLe a b = true → mpLe b c = true → mpLe a c = true := by
  intro a b c hab hbc
  cases a <;> cases b <;> cases c <;> simp_all [mpLe]
  exact le_trans hab hbc

theorem mpLe_total : ∀ a b : Option ℚ, (mpLe a b || mpLe b a) = true := by
  intro a b
  cases a <;> cases b <;> simp [mpLe]
  exact le_total _ _

theorem rowLe_iff (a b : OutRow) : rowLe a b = true ↔
    (b.methods_significant < a.methods_significant ∨
      (a.methods_significant = b.methods_significant ∧
        (b.methods_total < a.methods_total ∨
          (a.methods_total = b.methods_total ∧
            mpLe (min_pvalue a) (min_pvalue b) = true)))) := by
  unfold rowLe
  split_ifs with h1 h2 <;> simp_all

theorem rowLe_trans : ∀ a b c : OutRow, rowLe a b = true → rowLe b c = true →
    rowLe a c = true := by
  intro a b c hab hbc
  rw [rowLe_iff] at *
  rcases hab with hlt1 | ⟨heq1, hab2⟩
  · rcases hbc with hlt2 | ⟨heq2, -⟩
    · left; omega
    · left; omega
  · rcases hbc with hlt2 | ⟨heq2, hbc2⟩
    · left; omega
    · refine Or.inr ⟨by omega, ?_⟩
      rcases hab2 with hmt1 | ⟨hme1, hab3⟩
      · rcases hbc2 with hmt2 | ⟨hme2, -⟩
        · left; omega
        · left; omega
      · rcases hbc2 with hmt2 | ⟨hme2, hbc3⟩
        · left; omega
        · exact Or.inr ⟨by omega, mpLe_trans _ _ _ hab3 hbc3⟩

theorem rowLe_total : ∀ a b : OutRow, (rowLe a b || rowLe b a) = true := by
  intro a b
  rw [Bool.or_eq_true, rowLe_iff, rowLe_iff]
  rcases Nat.lt_trichotomy a.methods_significant b.methods_significant with h | h | h
  · exact Or.inr (Or.inl h)
  · rcases Nat.lt_trichotomy a.methods_total b.methods_total with h2 | h2 | h2
    · exact Or.inr (Or.inr ⟨h.symm, Or.inl h2⟩)
    · rcases Bool.or_eq_true _ _ |>.mp (mpLe_total (min_pvalue a) (min_pvalue b)) with h3 | h3
      · exact Or.inl (Or.inr ⟨h, Or.inr ⟨h2, h3⟩⟩)
      · exact Or.inr (Or.inr ⟨h.symm, Or.inr ⟨h2.symm, h3⟩⟩)
    · exact Or.inl (Or.inr ⟨h, Or.inl h2⟩)
  · exact Or.inl (Or.inl h)

instance : IsTrans OutRow (fun a b => rowLe a b = true) :=
  ⟨rowLe_trans⟩

instance : IsTotal OutRow (fun a b => rowLe a b = true) :=
  ⟨fun a b => (Bool.or_eq_true _ _).mp (rowLe_total a b)⟩

theorem core_perm_master (order : List PyVal) (cps : List CPRow) (gps : List GPRow)
    (tgs : List TGRow) (thr : ℚ) :
    (create_comparison_table_core order cps gps tgs thr).Perm
      ((masterRows order cps gps tgs).map mkOut) :=
  List.perm_insertionSort _ _

theorem core_sorted (order : List PyVal) (cps : List CPRow) (gps : List GPRow)
    (tgs : List TGRow) (thr : ℚ) :
    (create_comparison_table_core order cps gps tgs thr).Pairwise
      (fun a b => rowLe a b = true) :=
  List.sorted_insertionSort _ _

/-- A sample standardized clusterProfiler row (significant, small p-value). -/
def sampleCPRow1 : CPRow :=
  { term_id := some (.vstr "GO:1"), term_name := some (.vstr "alpha"),
    pvalue := some (mkRat 1 100), qvalue := some (mkRat 1 100),
    p_adjust := some (mkRat 1 50), fold_enrichment := some 2, gene_count := some 5,
    gene_ratio := some (.vstr "5/100"), genes := some (.vstr "g1/g2"),
    significant := true }

/-- A sample standardized clusterProfiler row (not significant). -/
def sampleCPRow2 : CPRow :=
  { term_id := some (.vstr "GO:2"), term_name := some (.vstr "beta"),
    pvalue := some (mkRat 1 2), qvalue := some (mkRat 1 2),
    p_adjust := some (mkRat 3 5), fold_enrichment := some 1, gene_count := some 3,
    gene_ratio := some (.vstr "3/100"), genes := some (.vstr "g3"),
    significant := false }

/-- C1: with term ids unique per standardized table, the output of
`create_comparison_table` has exactly one row per distinct non-missing
`term_id` of the three inputs: its `term_id` column is duplicate-free and its
members are exactly the union of the inputs' non-missing term ids. -/
theorem spec_C1 (order : List PyVal) (cps : List CPRow) (gps : List GPRow)
    (tgs : List TGRow) (thr : ℚ)
    (hcp : (cps.filterMap CPRow.term_id).Nodup)
    (hgp : (gps.filterMap GPRow.term_id).Nodup)
    (htg : (tgs.filterMap TGRow.term_id).Nodup)
    (hord : IsEnumOf order cps gps tgs) :
    ((create_comparison_table_core order cps gps tgs thr).map OutRow.term_id).Nodup ∧
      ∀ t : PyVal,
        t ∈ (create_comparison_table_core order cps gps tgs thr).map OutRow.term_id ↔
          t ∈ allTermIds cps gps tgs := by
  have hperm :
      ((create_comparison_table_core order cps gps tgs thr).map OutRow.term_id).Perm order := by
    have h2 := (core_perm_master order cps gps tgs thr).map OutRow.term_id
    rw [List.map_map] at h2
    have h3 : (masterRows order cps gps tgs).map (OutRow.term_id ∘ mkOut) = order := by
      have hco : OutRow.term_id ∘ mkOut = MergedRow.term_id := funext fun m => rfl
      rw [hco, masterRows_map_term_id order cps gps tgs hcp hgp htg]
    rwa [h3] at h2
  refine ⟨hperm.nodup_iff.mpr hord.1, fun t => ?_⟩
  rw [hperm.mem_iff]
  exact ⟨fun h => hord.2.1 t h, fun h => hord.2.2 t h⟩

/-- Witness for C1: the hypotheses hold and the conclusion evaluates at a
concrete pair of tables. -/
theorem spec_C1_witness :
    (([sampleCPRow1, sampleCPRow2].filterMap CPRow.term_id).Nodup ∧
      IsEnumOf [PyVal.vstr "GO:1", PyVal.vstr "GO:2"] [sampleCPRow1, sampleCPRow2] [] []) ∧
    ((create_comparison_table_core [PyVal.vstr "GO:1", PyVal.vstr "GO:2"]
        [sampleCPRow1, sampleCPRow2] [] [] (mkRat 5 100)).map OutRow.term_id).Nodup ∧
    (PyVal.vstr "GO:1" ∈ (create_comparison_table_core [PyVal.vstr "GO:1", PyVal.vstr "GO:2"]
        [sampleCPRow1, sampleCPRow2] [] [] (mkRat 5 100)).map OutRow.term_id ↔
      PyVal.vstr "GO:1" ∈ allTermIds [sampleCPRow1, sampleCPRow2] [] []) := by
  refine ⟨⟨by decide, by decide⟩, ?_, ?_⟩
  · exact (spec_C1 _ _ _ _ _ (by decide) (by decide) (by decide) (by decide)).1
  · exact (spec_C1 _ _ _ _ _ (by decide) (by decide) (by decide) (by decide)).2 _

/-- C2: adjacent output rows are ordered by the composite sort key:
`methods_significant` weakly decreases; on ties `methods_total` weakly
decreases; on double ties the row-wise minimum p-value weakly increases,
with an all-missing minimum sorting after every numeric one. -/
theorem spec_C2 (order : List PyVal) (cps : List CPRow) (gps : List GPRow)
    (tgs : List TGRow) (thr : ℚ) (i : ℕ) (a b : OutRow)
    (ha : (create_comparison_table_core order cps gps tgs thr)[i]? = some a)
    (hb : (create_comparison_table_core order cps gps tgs thr)[i + 1]? = some b) :
    b.methods_significant ≤ a.methods_significant ∧
      (a.methods_significant = b.methods_significant →
        b.methods_total ≤ a.methods_total) ∧
      (a.methods_significant = b.methods_significant →
        a.methods_total = b.methods_total →
        mpLe (min_pvalue a) (min_pvalue b) = true) := by
  obtain ⟨hia, hga⟩ := List.getElem?_eq_some_iff.mp ha
  obtain ⟨hib, hgb⟩ := List.getElem?_eq_some_iff.mp hb
  have hr : rowLe a b = true := by
    have hpw := List.pairwise_iff_getElem.mp (core_sorted order cps gps tgs thr)
      i (i + 1) hia hib (Nat.lt_succ_self i)
    rwa [hga, hgb] at hpw
  rw [rowLe_iff] at hr
  rcases hr with h | ⟨he, h2⟩
  · exact ⟨Nat.le_of_lt h, fun hms => by omega, fun hms _ => by omega⟩
  · refine ⟨Nat.le_of_eq he.symm, fun _ => ?_, fun _ hmt => ?_⟩
    · rcases h2 with h3 | ⟨h4, -⟩
      · exact Nat.le_of_lt h3
      · exact Nat.le_of_eq h4.symm
    · rcases h2 with h3 | ⟨h4, h5⟩
      · omega
      · exact h5

/-- The first two rows of a sample run, used to witness C2 concretely. -/
def sampleOut1 : OutRow :=
  mkOut { term_id := .vstr "GO:1", cp := some sampleCPRow1, gp := none, tg := none }

/-- The second row of the same sample run. -/
def sampleOut2 : OutRow :=
  mkOut { term_id := .vstr "GO:2", cp := some sampleCPRow2, gp := none, tg := none }

/-- Witness for C2: a concrete run with two rows, whose adjacent pair
satisfies the sort-key ordering. -/
theorem spec_C2_witness :
    (create_comparison_table_core [PyVal.vstr "GO:1", PyVal.vstr "GO:2"]
        [sampleCPRow1, sampleCPRow2] [] [] (mkRat 5 100))[0]? = some sampleOut1 ∧
    (create_comparison_table_core [PyVal.vstr "GO:1", PyVal.vstr "GO:2"]
        [sampleCPRow1, sampleCPRow2] [] [] (mkRat 5 100))[0 + 1]? = some sampleOut2 ∧
    (sampleOut2.methods_significant ≤ sampleOut1.methods_significant ∧
      (sampleOut1.methods_significant = sampleOut2.methods_significant →
        sampleOut2.methods_total ≤ sampleOut1.methods_total) ∧
      (sampleOut1.methods_significant = sampleOut2.methods_significant →
        sampleOut1.methods_total = sampleOut2.methods_total →
        mpLe (min_pvalue sampleOut1) (min_pvalue sampleOut2) = true)) :=
  ⟨by decide, by decide,
    spec_C2 [PyVal.vstr "GO:1", PyVal.vstr "GO:2"] [sampleCPRow1, sampleCPRow2] [] []
      (mkRat 5 100) 0 sampleOut1 sampleOut2 (by decide) (by decide)⟩

/-- Two standardized clusterProfiler rows that tie on all three sort keys
(same significance, same method count, same p-value). -/
def tiedCPRow1 : CPRow :=
  { term_id := some (.vstr "GO:1"), term_name := some (.vstr "a"),
    pvalue := some (mkRat 1 2), qvalue := some (mkRat 1 2), p_adjust := none,
    fold_enrichment := none, gene_count := none, gene_ratio := none,
    genes := none, significant := false }

/-- The second tied row; see `tiedCPRow1`. -/
def tiedCPRow2 : CPRow :=
  { term_id := some (.vstr "GO:2"), term_name := some (.vstr "b"),
    pvalue := some (mkRat 1 2), qvalue := some (mkRat 1 2), p_adjust := none,
    fold_enrichment := none, gene_count := none, gene_ratio := none,
    genes := none, significant := false }

/-- C3 counterexample: the run is not deterministic as claimed.  The base
row order comes from iterating a Python `set` of strings, which is not fixed
across runs; two legitimate iteration orders of the same term set yield
different output row orders when rows tie on all three sort keys. -/
theorem spec_C3_cex :
    ¬ (∀ (cps : List CPRow) (gps : List GPRow) (tgs : List TGRow) (thr : ℚ)
        (order₁ order₂ : List PyVal),
        IsEnumOf order₁ cps gps tgs → IsEnumOf order₂ cps gps tgs →
        create_comparison_table_core order₁ cps gps tgs thr =
          create_comparison_table_core order₂ cps gps tgs thr) := by
  intro h
  have heq := h [tiedCPRow1, tiedCPRow2] [] [] (mkRat 5 100)
    [PyVal.vstr "GO:1", PyVal.vstr "GO:2"] [PyVal.vstr "GO:2", PyVal.vstr "GO:1"]
    (by decide) (by decide)
  exact absurd heq (by decide)

/-- C3 (amended): for a fixed trio of inputs the output is deterministic up
to the iteration order of the term-id set: any two runs produce the same
rows (a permutation of each other), and by C2 both are sorted by the same
composite key; row order itself can differ only among rows tied on all
three sort keys. -/
theorem spec_C3_amended (cps : List CPRow) (gps : List GPRow) (tgs : List TGRow)
    (thr : ℚ) (order₁ order₂ : List PyVal)
    (h₁ : IsEnumOf order₁ cps gps tgs) (h₂ : IsEnumOf order₂ cps gps tgs) :
    (create_comparison_table_core order₁ cps gps tgs thr).Perm
      (create_comparison_table_core order₂ cps gps tgs thr) := by
  have hords : order₁.Perm order₂ :=
    (List.perm_ext_iff_of_nodup h₁.1 h₂.1).mpr fun a =>
      ⟨fun ha => h₂.2.2 a (h₁.2.1 a ha), fun ha => h₁.2.2 a (h₂.2.1 a ha)⟩
  have hmaster : (masterRows order₁ cps gps tgs).Perm (masterRows order₂ cps gps tgs) := by
    unfold masterRows
    exact List.Perm.flatMap_right _ hords
  exact (core_perm_master order₁ cps gps tgs thr).trans
    ((hmaster.map mkOut).trans (core_perm_master order₂ cps gps tgs thr).symm)

/-- Witness for the amended C3 at the tied-rows example. -/
theorem spec_C3_amended_witness :
    IsEnumOf [PyVal.vstr "GO:1", PyVal.vstr "GO:2"] [tiedCPRow1, tiedCPRow2] [] [] ∧
    IsEnumOf [PyVal.vstr "GO:2", PyVal.vstr "GO:1"] [tiedCPRow1, tiedCPRow2] [] [] ∧
    (create_comparison_table_core [PyVal.vstr "GO:1", PyVal.vstr "GO:2"]
        [tiedCPRow1, tiedCPRow2] [] [] (mkRat 5 100)).Perm
      (create_comparison_table_core [PyVal.vstr "GO:2", PyVal.vstr "GO:1"]
        [tiedCPRow1, tiedCPRow2] [] [] (mkRat 5 100)) :=
  ⟨by decide, by decide,
    spec_C3_amended [tiedCPRow1, tiedCPRow2] [] [] (mkRat 5 100)
      [PyVal.vstr "GO:1", PyVal.vstr "GO:2"] [PyVal.vstr "GO:2", PyVal.vstr "GO:1"]
      (by decide) (by decide)⟩

/-- The number of standardized tables that contain a row with the given
term id at all — the count C4 claims `methods_total` to be. -/
def tablesReporting (t : PyVal) (cps : List CPRow) (gps : List GPRow)
    (tgs : List TGRow) : ℕ :=
  (decide (t ∈ cps.filterMap CPRow.term_id)).toNat +
  (decide (t ∈ gps.filterMap GPRow.term_id)).toNat +
  (decide (t ∈ tgs.filterMap TGRow.term_id)).toNat

/-- The number of standardized tables that contain a row with the given term
id whose p-value column is non-missing — what `methods_total` actually is. -/
def tablesReportingNum (t : PyVal) (cps : List CPRow) (gps : List GPRow)
    (tgs : List TGRow) : ℕ :=
  (decide (∃ r ∈ cps, CPRow.term_id r = some t ∧ (CPRow.pvalue r).isSome = true)).toNat +
  (decide (∃ r ∈ gps, GPRow.term_id r = some t ∧ (GPRow.pvalue r).isSome = true)).toNat +
  (decide (∃ r ∈ tgs, TGRow.term_id r = some t ∧ (TGRow.pvalue r).isSome = true)).toNat

/-- A topGO input file whose single row has an unparseable `fisher` cell. -/
def cexTGFrame : Frame :=
  { cols := ["GO.ID", "Term", "fisher", "Annotated", "Significant", "Expected"]
    rows := [[some (.vstr "GO:1"), some (.vstr "gamma"), some (.vstr "n/a"),
              some (.vnum 10), some (.vnum 5), some (.vnum (mkRat 3 2))]] }

/-- The standardized row `load_topgo_results` builds from `cexTGFrame`: the
term is reported, but its normalized p-value is missing. -/
def cexTGRow : TGRow :=
  { term_id := some (.vstr "GO:1"), term_name := some (.vstr "gamma"),
    pvalue_raw := some (.vstr "n/a"), annotated := some 10, significant := some 5,
    expected := some (mkRat 3 2),
    pvalue := parse_p_value (some (.vstr "n/a")),
    significant_flag := seriesLt (parse_p_value (some (.vstr "n/a"))) (mkRat 5 100) }

/-- The merged row the counterexample run produces for `GO:1`. -/
def cexMergedRow : MergedRow :=
  { term_id := .vstr "GO:1", cp := none, gp := none, tg := some cexTGRow }

/-- C4 counterexample: `methods_total` does not count every method that
reported the term.  A topGO table (as produced by the loader from a real
file) reports `GO:1` with the unparseable p-value `"n/a"`; the merged row has
`methods_total = 0`, not 1, because line 139-143 counts non-missing p-value
columns, not reporting methods. -/
theorem spec_C4_cex :
    load_topgo_results cexTGFrame = Except.ok [cexTGRow] ∧
    ¬ (∀ (order : List PyVal) (cps : List CPRow) (gps : List GPRow) (tgs : List TGRow)
        (thr : ℚ) (r : OutRow),
        (cps.filterMap CPRow.term_id).Nodup →
        (gps.filterMap GPRow.term_id).Nodup →
        (tgs.filterMap TGRow.term_id).Nodup →
        IsEnumOf order cps gps tgs →
        r ∈ create_comparison_table_core order cps gps tgs thr →
        r.methods_total = tablesReporting r.term_id cps gps tgs) := by
  refine ⟨by decide, fun h => ?_⟩
  have heq := h [.vstr "GO:1"] [] [] [cexTGRow] (mkRat 5 100) (mkOut cexMergedRow)
    (by decide) (by decide) (by decide) (by decide) (by decide)
  exact absurd heq (by decide)

/-- C4 (amended): with term ids unique per standardized table, every output
row's `methods_total` equals the number of standardized tables that contain
a row with that term id whose p-value column is non-missing; a method that
reported the term with a missing or unparseable p-value is not counted. -/
theorem spec_C4_amended (order : List PyVal) (cps : List CPRow) (gps : List GPRow)
    (tgs : List TGRow) (thr : ℚ) (r : OutRow)
    (hcp : (cps.filterMap CPRow.term_id).Nodup)
    (hgp : (gps.filterMap GPRow.term_id).Nodup)
    (htg : (tgs.filterMap TGRow.term_id).Nodup)
    (hr : r ∈ create_comparison_table_core order cps gps tgs thr) :
    r.methods_total = tablesReportingNum r.term_id cps gps tgs := by
  have hmem : r ∈ (masterRows order cps gps tgs).map mkOut :=
    (core_perm_master order cps gps tgs thr).mem_iff.mp hr
  obtain ⟨m, hm, rfl⟩ := List.mem_map.mp hmem
  rw [masterRows_eq_map order cps gps tgs hcp hgp htg] at hm
  obtain ⟨t, ht, rfl⟩ := List.mem_map.mp hm
  show ((theMatch CPRow.term_id cps t).bind CPRow.pvalue).isSome.toNat +
      ((theMatch GPRow.term_id gps t).bind GPRow.pvalue).isSome.toNat +
      ((theMatch TGRow.term_id tgs t).bind TGRow.pvalue).isSome.toNat =
    tablesReportingNum t cps gps tgs
  rw [theMatch_bind_isSome CPRow.term_id CPRow.pvalue cps t hcp,
      theMatch_bind_isSome GPRow.term_id GPRow.pvalue gps t hgp,
      theMatch_bind_isSome TGRow.term_id TGRow.pvalue tgs t htg]
  rfl

/-- Witness for the amended C4: the counterexample run itself satisfies it
(`methods_total = 0` because the only reporting method has a missing
p-value). -/
theorem spec_C4_amended_witness :
    mkOut cexMergedRow ∈
      create_comparison_table_core [PyVal.vstr "GO:1"] [] [] [cexTGRow] (mkRat 5 100) ∧
    (mkOut cexMergedRow).methods_total =
      tablesReportingNum (PyVal.vstr "GO:1") [] [] [cexTGRow] :=
  ⟨by decide,
    spec_C4_amended [PyVal.vstr "GO:1"] [] [] [cexTGRow] (mkRat 5 100)
      (mkOut cexMergedRow) (by decide) (by decide) (by decide) (by decide)⟩

/-- C5: in every output row, `methods_total` is the number of the three
method p-value columns that are non-missing in that row. -/
theorem spec_C5 (order : List PyVal) (cps : List CPRow) (gps : List GPRow)
    (tgs : List TGRow) (thr : ℚ) (r : OutRow)
    (hr : r ∈ create_comparison_table_core order cps gps tgs thr) :
    r.methods_total = r.clusterprofiler_pvalue.isSome.toNat +
      r.gprofiler2_pvalue.isSome.toNat + r.topgo_pvalue.isSome.toNat := by
  have hmem : r ∈ (masterRows order cps gps tgs).map mkOut :=
    (core_perm_master order cps gps tgs thr).mem_iff.mp hr
  obtain ⟨m, -, rfl⟩ := List.mem_map.mp hmem
  rfl

/-- Witness for C5 at a concrete run. -/
theorem spec_C5_witness :
    sampleOut1 ∈ create_comparison_table_core [PyVal.vstr "GO:1", PyVal.vstr "GO:2"]
      [sampleCPRow1, sampleCPRow2] [] [] (mkRat 5 100) ∧
    sampleOut1.methods_total = sampleOut1.clusterprofiler_pvalue.isSome.toNat +
      sampleOut1.gprofiler2_pvalue.isSome.toNat + sampleOut1.topgo_pvalue.isSome.toNat :=
  ⟨by decide,
    spec_C5 [PyVal.vstr "GO:1", PyVal.vstr "GO:2"] [sampleCPRow1, sampleCPRow2] [] []
      (mkRat 5 100) sampleOut1 (by decide)⟩

/-- C6: in every output row, `methods_significant` is the number of the three
significance flags that are true, a missing flag counting as false. -/
theorem spec_C6 (order : List PyVal) (cps : List CPRow) (gps : List GPRow)
    (tgs : List TGRow) (thr : ℚ) (r : OutRow)
    (hr : r ∈ create_comparison_table_core order cps gps tgs thr) :
    r.methods_significant = (r.clusterprofiler_significant.getD false).toNat +
      (r.gprofiler2_significant.getD false).toNat +
      (r.topgo_significant_flag.getD false).toNat := by
  have hmem : r ∈ (masterRows order cps gps tgs).map mkOut :=
    (core_perm_master order cps gps tgs thr).mem_iff.mp hr
  obtain ⟨m, -, rfl⟩ := List.mem_map.mp hmem
  rfl

/-- Witness for C6 at a concrete run. -/
theorem spec_C6_witness :
    sampleOut1 ∈ create_comparison_table_core [PyVal.vstr "GO:1", PyVal.vstr "GO:2"]
      [sampleCPRow1, sampleCPRow2] [] [] (mkRat 5 100) ∧
    sampleOut1.methods_significant = (sampleOut1.clusterprofiler_significant.getD false).toNat +
      (sampleOut1.gprofiler2_significant.getD false).toNat +
      (sampleOut1.topgo_significant_flag.getD false).toNat :=
  ⟨by decide,
    spec_C6 [PyVal.vstr "GO:1", PyVal.vstr "GO:2"] [sampleCPRow1, sampleCPRow2] [] []
      (mkRat 5 100) sampleOut1 (by decide)⟩

/-- C7: `parse_p_value` is total and never raises: missing input stays
missing; a leading `<` on the stripped text is dropped and the rest stripped
and parsed as a float, whose value is returned as-is; text that does not
parse as a float yields the missing marker.  Concretely
`parse("< 1e-30") = 10⁻³⁰`, `parse("0.05") = 1/20`, and `parse("")`,
`parse("n/a")` and `parse(missing)` are all missing. -/
theorem spec_C7 :
    parse_p_value none = none ∧
    (∀ (s : String) (r : List Char), pyStrip s.data = '<' :: r →
      parse_p_value (some (.vstr s)) = pyFloatCore (pyStrip r)) ∧
    (∀ s : String, (∀ r : List Char, pyStrip s.data ≠ '<' :: r) →
      parse_p_value (some (.vstr s)) = pyFloatCore (pyStrip s.data)) ∧
    parse_p_value (some (.vstr "< 1e-30")) = some (mkRat 1 (10 ^ 30)) ∧
    parse_p_value (some (.vstr "0.05")) = some (mkRat 1 20) ∧
    parse_p_value (some (.vstr "")) = none ∧
    parse_p_value (some (.vstr "n/a")) = none := by
  refine ⟨rfl, ?_, ?_, by decide, by decide, by decide, by decide⟩
  · intro s r h
    simp only [parse_p_value, h]
  · intro s h
    simp only [parse_p_value]

/-- Witness for C7: the stripping branch applied to the `"< 1e-30"` cell. -/
theorem spec_C7_witness :
    pyStrip "< 1e-30".data = '<' :: " 1e-30".data ∧
    parse_p_value (some (.vstr "< 1e-30")) = pyFloatCore (pyStrip " 1e-30".data) :=
  ⟨by decide, spec_C7.2.1 "< 1e-30" " 1e-30".data (by decide)⟩

/-- C8: when any of the three required input files is absent, `main` prints
the missing-file message naming a missing path and returns before writing
any output. -/
theorem spec_C8 (fs : FS) (order : List PyVal)
    (h : ∃ p ∈ inputPaths, fs.lookup p = none) :
    ∃ p ∈ inputPaths, fs.lookup p = none ∧
      main_run fs order = .missingFile p ∧
      ∀ t, main_run fs order ≠ .wrote t := by
  obtain ⟨p₀, hp₀, hnone⟩ := h
  have hfind : (inputPaths.find? fun p => (fs.lookup p).isNone).isSome := by
    rw [List.find?_isSome]
    exact ⟨p₀, hp₀, by simp [hnone]⟩
  obtain ⟨p, hp⟩ := Option.isSome_iff_exists.mp hfind
  refine ⟨p, List.mem_of_find?_eq_some hp, ?_, ?_, ?_⟩
  · have hpn := List.find?_some hp
    simpa using hpn
  · unfold main_run
    rw [hp]
  · intro t
    unfold main_run
    rw [hp]
    simp

/-- Witness for C8: an empty filesystem is missing all three inputs. -/
theorem spec_C8_witness :
    (∃ p ∈ inputPaths, (FS.mk []).lookup p = none) ∧
    ∃ p ∈ inputPaths, (FS.mk []).lookup p = none ∧
      main_run (FS.mk []) [] = .missingFile p ∧
      ∀ t, main_run (FS.mk []) [] ≠ .wrote t :=
  ⟨by decide, spec_C8 (FS.mk []) [] (by decide)⟩

theorem find_required {req : List String} {f : Frame} {c : String}
    (hc : c ∈ req) (hmiss : c ∉ f.cols) :
    ∃ c', req.find? (fun c => ! f.cols.contains c) = some c' ∧
      c' ∈ req ∧ c' ∉ f.cols := by
  have hsome : (req.find? fun c => ! f.cols.contains c).isSome := by
    rw [List.find?_isSome]
    exact ⟨c, hc, by simpa using hmiss⟩
  obtain ⟨c', hc'⟩ := Option.isSome_iff_exists.mp hsome
  refine ⟨c', hc', List.mem_of_find?_eq_some hc', ?_⟩
  have hpred := List.find?_some hc'
  simpa using hpred

/-- C9: a present input file that lacks a required column makes its loader
fail with a schema error naming a required column that is indeed absent
(the first such, in access order), and any loader failure aborts
`create_comparison_table` and the whole run before any output is written. -/
theorem spec_C9 :
    (∀ (f : Frame) (c : String), c ∈ cpRequiredCols → c ∉ f.cols →
      ∃ c', c' ∈ cpRequiredCols ∧ c' ∉ f.cols ∧
        load_clusterprofiler_results f = .error c') ∧
    (∀ (f : Frame) (c : String), c ∈ gpRequiredCols → c ∉ f.cols →
      ∃ c', c' ∈ gpRequiredCols ∧ c' ∉ f.cols ∧
        load_gprofiler2_results f = .error c') ∧
    (∀ (f : Frame) (c : String), c ∈ tgRequiredCols → c ∉ f.cols →
      ∃ c', c' ∈ tgRequiredCols ∧ c' ∉ f.cols ∧
        load_topgo_results f = .error c') ∧
    (∀ (cpF gpF tgF : Frame) (order : List PyVal) (thr : ℚ) (c : String),
      load_clusterprofiler_results cpF = .error c →
      create_comparison_table cpF gpF tgF order thr = .error c) ∧
    (∀ (cpF gpF tgF : Frame) (order : List PyVal) (thr : ℚ) (c : String)
      (cs : List CPRow), load_clusterprofiler_results cpF = .ok cs →
      load_gprofiler2_results gpF = .error c →
      create_comparison_table cpF gpF tgF order thr = .error c) ∧
    (∀ (cpF gpF tgF : Frame) (order : List PyVal) (thr : ℚ) (c : String)
      (cs : List CPRow) (gs : List GPRow), load_clusterprofiler_results cpF = .ok cs →
      load_gprofiler2_results gpF = .ok gs →
      load_topgo_results tgF = .error c →
      create_comparison_table cpF gpF tgF order thr = .error c) ∧
    (∀ (fs : FS) (order : List PyVal) (c : String),
      (∀ p ∈ inputPaths, (fs.lookup p).isSome = true) →
      create_comparison_table
          (fs.frameOf "results/clusterProfiler_enrichment_results.csv")
          (fs.frameOf "results/gprofiler2_enrichment_results.csv")
          (fs.frameOf "results/topGO_enrichment_results.csv") order (mkRat 5 100) =
        .error c →
      main_run fs order = .schemaFailure c ∧ ∀ t, main_run fs order ≠ .wrote t) := by
  refine ⟨?_, ?_, ?_, ?_, ?_, ?_, ?_⟩
  · intro f c hc hm
    obtain ⟨c', hfind, hc', hm'⟩ := find_required hc hm
    exact ⟨c', hc', hm', by unfold load_clusterprofiler_results; rw [hfind]⟩
  · intro f c hc hm
    obtain ⟨c', hfind, hc', hm'⟩ := find_required hc hm
    exact ⟨c', hc', hm', by unfold load_gprofiler2_results; rw [hfind]⟩
  · intro f c hc hm
    obtain ⟨c', hfind, hc', hm'⟩ := find_required hc hm
    exact ⟨c', hc', hm', by unfold load_topgo_results; rw [hfind]⟩
  · intro cpF gpF tgF order thr c h1
    unfold create_comparison_table
    rw [h1]
    rfl
  · intro cpF gpF tgF order thr c cs h1 h2
    unfold create_comparison_table
    rw [h1, h2]
    rfl
  · intro cpF gpF tgF order thr c cs gs h1 h2 h3
    unfold create_comparison_table
    rw [h1, h2, h3]
    rfl
  · intro fs order c hall hcreate
    have hfind : inputPaths.find? (fun p => (fs.lookup p).isNone) = none := by
      rw [List.find?_eq_none]
      intro p hp
      simpa using Option.isSome_iff_ne_none.mp (hall p hp)
    constructor
    · simp [main_run, hfind, hcreate]
    · intro t
      simp [main_run, hfind, hcreate]

/-- A clusterProfiler input file missing its `pvalue` column. -/
def badCPFrame : Frame :=
  { cols := ["ID", "Description"], rows := [] }

/-- A well-formed but empty gprofiler2 input file. -/
def emptyGPFrame : Frame :=
  { cols := gpRequiredCols, rows := [] }

/-- A well-formed but empty topGO input file. -/
def emptyTGFrame : Frame :=
  { cols := tgRequiredCols, rows := [] }

/-- A filesystem whose clusterProfiler file is present but malformed. -/
def fsSchema : FS :=
  ⟨[("results/clusterProfiler_enrichment_results.csv", badCPFrame),
    ("results/gprofiler2_enrichment_results.csv", emptyGPFrame),
    ("results/topGO_enrichment_results.csv", emptyTGFrame)]⟩

/-- Witness for C9: the malformed clusterProfiler file aborts loading with a
schema error naming `pvalue`, and the run writes nothing. -/
theorem spec_C9_witness :
    ("pvalue" ∈ cpRequiredCols ∧ "pvalue" ∉ badCPFrame.cols) ∧
    (∃ c', c' ∈ cpRequiredCols ∧ c' ∉ badCPFrame.cols ∧
      load_clusterprofiler_results badCPFrame = .error c') ∧
    ((∀ p ∈ inputPaths, ((fsSchema.lookup p).isSome = true)) ∧
      create_comparison_table
          (fsSchema.frameOf "results/clusterProfiler_enrichment_results.csv")
          (fsSchema.frameOf "results/gprofiler2_enrichment_results.csv")
          (fsSchema.frameOf "results/topGO_enrichment_results.csv") [] (mkRat 5 100) =
        .error "pvalue") ∧
    (main_run fsSchema [] = .schemaFailure "pvalue" ∧
      ∀ t, main_run fsSchema [] ≠ .wrote t) :=
  ⟨⟨by decide, by decide⟩,
    spec_C9.1 badCPFrame "pvalue" (by decide) (by decide),
    ⟨by decide, by decide⟩,
    spec_C9.2.2.2.2.2.2 fsSchema [] "pvalue" (by decide) (by decide)⟩

/-- C10: the `significance_threshold` parameter of `create_comparison_table`
is never read — both 0.05 cutoffs are hard-coded in the loaders — so the
result is identical for any two threshold values. -/
theorem spec_C10 :
    ∀ (cpF gpF tgF : Frame) (order : List PyVal) (t₁ t₂ : ℚ),
      create_comparison_table cpF gpF tgF order t₁ =
        create_comparison_table cpF gpF tgF order t₂ :=
  fun _ _ _ _ _ _ => rfl
